import Mathlib

set_option maxHeartbeats 1000000

/- Shallow embedding of src/app.py (a small Flask app that validates a GSTIN,
   verifies it against an upstream service, and inserts a submission row into
   Postgres).  Strings are modelled at the ASCII level: Python str.strip maps
   to dropping whitespace characters on both ends, str.upper to ASCII
   uppercasing, and the regex character class for a digit to the ASCII digits.
   JSON values (request bodies and upstream payloads) are modelled by an
   inductive type; Python attribute errors raised by calling .get or .strip on
   a non-dict / non-string value are modelled with an Except monad, since such
   an exception escapes the handler unhandled. -/

/-- A JSON value, as produced by request.get_json or resp.json(). -/
inductive Json where
  | null
  | bool (b : Bool)
  | num (n : Int)
  | str (s : String)
  | arr (elems : List Json)
  | obj (fields : List (String × Json))

/-- A Python exception that the handler code does not catch. -/
inductive PyExn where
  | attributeError
  deriving DecidableEq

/-- Python truthiness of a JSON value (used by the or-defaulting idiom). -/
def truthy : Json → Bool
  | .null => false
  | .bool b => b
  | .num n => n != 0
  | .str s => s != ""
  | .arr elems => !elems.isEmpty
  | .obj fields => !fields.isEmpty

/-- Python: a or b. -/
def pyOr (a b : Json) : Json := if truthy a then a else b

/-- Python str.strip(): remove leading and trailing whitespace. -/
def pyStrip (s : String) : String :=
  ⟨((s.toList.dropWhile Char.isWhitespace).reverse.dropWhile Char.isWhitespace).reverse⟩

/-- Python str.upper(), ASCII model. -/
def pyUpper (s : String) : String := ⟨s.toList.map Char.toUpper⟩

/-- Python d.get(k): None when the key is absent; AttributeError when the
receiver is not a dict. -/
def dictGet (j : Json) (k : String) : Except PyExn Json :=
  match j with
  | .obj fields => .ok ((fields.lookup k).getD Json.null)
  | _ => .error PyExn.attributeError

/-- Python d.get(k, default): the stored value when the key is present
(even if it is null), otherwise the default. -/
def dictGetD (j : Json) (k : String) (d : Json) : Json :=
  match j with
  | .obj fields => (fields.lookup k).getD d
  | _ => d

/-- The idiom (data.get(k) or "").strip() used for every request field. -/
def getStrField (data : Json) (k : String) : Except PyExn String :=
  match dictGet data k with
  | .error e => .error e
  | .ok v =>
    match pyOr v (Json.str "") with
    | .str s => .ok (pyStrip s)
    | _ => .error PyExn.attributeError

/-- request.get_json(silent=True) or \x7b\x7d: a missing or unparseable body
gives None, and a falsy parsed body is replaced by the empty dict. -/
def bodyData (body : Option Json) : Json :=
  match body with
  | none => Json.obj []
  | some j => pyOr j (Json.obj [])

/-- Character class [A-Z] of the GSTIN regex. -/
def isUpperAlpha (c : Char) : Bool := decide ('A' ≤ c) && decide (c ≤ 'Z')

/-- Character class [A-Z0-9] of the GSTIN regex. -/
def isUpperAlnum (c : Char) : Bool := isUpperAlpha c || c.isDigit

/-- Matches a fixed-length sequence of character classes against a string,
anchored at both ends (the regex is ^...$ with no alternation or stars once
the counted repetitions are expanded). -/
def matchClasses : List (Char → Bool) → List Char → Bool
  | [], [] => true
  | f :: fs, c :: cs => f c && matchClasses fs cs
  | _, _ => false

/-- The 15 positional character classes of GSTIN_REGEX,
the expansion of two digits, five upper letters, four digits, one upper
letter, one upper alphanumeric, a literal Z, one upper alphanumeric. -/
def gstinClasses : List (Char → Bool) :=
  [Char.isDigit, Char.isDigit,
   isUpperAlpha, isUpperAlpha, isUpperAlpha, isUpperAlpha, isUpperAlpha,
   Char.isDigit, Char.isDigit, Char.isDigit, Char.isDigit,
   isUpperAlpha, isUpperAlnum, (fun c => c == 'Z'), isUpperAlnum]

/-- GSTIN_REGEX.match(s) as a Boolean full-match test. -/
def gstinMatch (s : String) : Bool := matchClasses gstinClasses s.toList

/-- An HTTP response: status code plus the jsonify-serialized body. -/
structure Response where
  status : Nat
  body : Json

/-- jsonify of an ok:false body carrying only a message string. -/
def errBody (m : String) : Json :=
  Json.obj [("ok", Json.bool false), ("message", Json.str m)]

/-- The three early-return validation checks of verify_gst (lines 146-151),
applied to the normalized gstn; none means the checks passed. -/
def verifyCheck (gstn : String) : Option Response :=
  if gstn = "" then some ⟨400, errBody "GSTIN is required."⟩
  else if gstn.length ≠ 15 then some ⟨400, errBody "GSTIN must be exactly 15 characters."⟩
  else if !gstinMatch gstn then some ⟨400, errBody "GSTIN format looks invalid."⟩
  else none

/-- Outcome of the outbound AppyFlow call: a requests-level failure (timeout,
connection error, or a non-2xx status raised by raise_for_status), a body that
fails JSON decoding, or a decoded JSON payload. -/
inductive UpstreamResult where
  | transportError (detail : String)
  | badJson
  | payload (j : Json)

/-- Lines 175-177: info = (payload or \x7b\x7d).get("taxpayerInfo") or \x7b\x7d,
then legal_name and firm_name extracted with the or-empty-string, strip idiom. -/
def extractNames (payload : Json) : Except PyExn (String × String) :=
  match dictGet (pyOr payload (Json.obj [])) "taxpayerInfo" with
  | .error e => .error e
  | .ok tiRaw =>
    let info := pyOr tiRaw (Json.obj [])
    match dictGet info "lgnm" with
    | .error e => .error e
    | .ok lg =>
      match pyOr lg (Json.str "") with
      | .str lgs =>
        match dictGet info "tradeNam" with
        | .error e => .error e
        | .ok tn =>
          match pyOr tn (Json.str "") with
          | .str tns => .ok (pyStrip lgs, pyStrip tns)
          | _ => .error PyExn.attributeError
      | _ => .error PyExn.attributeError

/-- Lines 175-182 of verify_gst: everything after the error-flag test. -/
def afterErrorCheck (gstn : String) (payload : Json) : Except PyExn Response :=
  match extractNames payload with
  | .error e => .error e
  | .ok (legal_name, firm_name) =>
    if legal_name = "" ∧ firm_name = "" then
      .ok ⟨404, errBody "Could not find Legal Name / Firm Name for this GSTIN."⟩
    else
      .ok ⟨200, Json.obj [("ok", Json.bool true), ("gstn", Json.str gstn),
                          ("legal_name", Json.str legal_name),
                          ("firm_name", Json.str firm_name)]⟩

/-- The POST /api/verify_gst handler.  keySecret is the APPYFLOW_KEY_SECRET
configuration value; body is the parsed request body (none when absent or
unparseable); upstream is the outcome of the outbound call, performed only
when control reaches it. -/
def verify_gst (keySecret : String) (body : Option Json) (upstream : UpstreamResult) :
    Except PyExn Response :=
  let data := bodyData body
  match getStrField data "gstn" with
  | .error e => .error e
  | .ok g0 =>
    let gstn := pyUpper g0
    match verifyCheck gstn with
    | some r => .ok r
    | none =>
      if keySecret = "" then .ok ⟨500, errBody "Server missing APPYFLOW_KEY_SECRET."⟩
      else
        match upstream with
        | .transportError d => .ok ⟨502, errBody ("Error contacting AppyFlow: " ++ d)⟩
        | .badJson => .ok ⟨502, errBody "Invalid JSON from AppyFlow."⟩
        | .payload p =>
          match dictGet p "error" with
          | .error e => .error e
          | .ok ev =>
            match ev with
            | .bool true =>
              .ok ⟨400, Json.obj [("ok", Json.bool false),
                                  ("message", dictGetD p "message" (Json.str "GST verification failed."))]⟩
            | _ => afterErrorCheck gstn p

/-- The six request fields read by the submit handler (lines 188-193),
already normalized (trimmed; gstn also uppercased). -/
structure SubmitFields where
  gstn : String
  legal_name : String
  firm_name : String
  name1 : String
  name2 : String
  contact : String
  deriving DecidableEq

/-- Lines 188-193 of submit: field extraction and normalization. -/
def extractSubmitFields (data : Json) : Except PyExn SubmitFields :=
  match getStrField data "gstn" with
  | .error e => .error e
  | .ok g =>
    match getStrField data "legal_name" with
    | .error e => .error e
    | .ok lg =>
      match getStrField data "firm_name" with
      | .error e => .error e
      | .ok fm =>
        match getStrField data "name1" with
        | .error e => .error e
        | .ok n1 =>
          match getStrField data "name2" with
          | .error e => .error e
          | .ok n2 =>
            match getStrField data "contact" with
            | .error e => .error e
            | .ok ct => .ok ⟨pyUpper g, lg, fm, n1, n2, ct⟩

/-- Lines 195-198 of submit: the required-fields check, then the combined
length and pattern check; none means both passed. -/
def submitChecks (f : SubmitFields) : Option Response :=
  if f.gstn = "" ∨ f.legal_name = "" ∨ f.firm_name = "" ∨ f.name1 = "" ∨ f.contact = "" then
    some ⟨400, errBody "Please verify GSTIN and fill Name 1 & Contact."⟩
  else if f.gstn.length ≠ 15 ∨ !gstinMatch f.gstn then
    some ⟨400, errBody "GSTIN format looks invalid."⟩
  else none

/-- One row of the submissions table.  The schema declares name2 nullable, so
that column is modelled as an Option; the handler always supplies a string. -/
structure Row where
  gstn : String
  legal_name : String
  firm_name : String
  name1 : String
  name2 : Option String
  contact : String
  created_at : Nat
  deriving DecidableEq

/-- Lines 200-218 of submit: the insert guarded by the gstn primary key, with
the three exception outcomes.  fault injects a driver-level failure (anything
the driver can raise other than UniqueViolation, including the pool setup
RuntimeError); with no fault, the primary key on gstn makes the insert raise
UniqueViolation exactly when a row with the same gstn exists. -/
def dbPhase (f : SubmitFields) (db : List Row) (fault : Option String) (now : Nat) :
    Response × List Row :=
  match fault with
  | some d => (⟨500, errBody ("DB insert failed: " ++ d)⟩, db)
  | none =>
    if db.any (fun r => r.gstn == f.gstn) then
      (⟨409, Json.obj [("ok", Json.bool false),
                       ("message", Json.str "This GSTIN already exists."),
                       ("code", Json.str "duplicate")]⟩, db)
    else
      (⟨200, Json.obj [("ok", Json.bool true), ("id", Json.str f.gstn)]⟩,
       db ++ [⟨f.gstn, f.legal_name, f.firm_name, f.name1, some f.name2, f.contact, now⟩])

/-- The submit handler applied to an already-defaulted body dict. -/
def submitCore (data : Json) (db : List Row) (fault : Option String) (now : Nat) :
    Except PyExn (Response × List Row) :=
  match extractSubmitFields data with
  | .error e => .error e
  | .ok f =>
    match submitChecks f with
    | some r => .ok (r, db)
    | none => .ok (dbPhase f db fault now)

/-- The POST /submit handler.  body is the parsed request body (none when
absent or unparseable); db is the current contents of the submissions table;
fault optionally injects a non-uniqueness storage failure; now is the
server-assigned insertion timestamp. -/
def submit (body : Option Json) (db : List Row) (fault : Option String) (now : Nat) :
    Except PyExn (Response × List Row) :=
  submitCore (bodyData body) db fault now

/-- Modelled from the spec: the structural pattern of section 3 — two digits,
then five uppercase letters, then four digits, then one uppercase letter, then
one uppercase alphanumeric, then the literal Z, then one uppercase
alphanumeric — stated independently of the regex translation, for comparison
with it. -/
def specGstinPattern (s : String) : Prop :=
  ∃ (d2 l5 d4 : List Char) (u x1 x2 : Char),
    s.toList = d2 ++ l5 ++ d4 ++ [u, x1, 'Z', x2] ∧
    d2.length = 2 ∧ (∀ c ∈ d2, c.isDigit = true) ∧
    l5.length = 5 ∧ (∀ c ∈ l5, isUpperAlpha c = true) ∧
    d4.length = 4 ∧ (∀ c ∈ d4, c.isDigit = true) ∧
    isUpperAlpha u = true ∧ isUpperAlnum x1 = true ∧ isUpperAlnum x2 = true

/- ------------------------------------------------------------------ -/
/- Helper lemmas                                                       -/
/- ------------------------------------------------------------------ -/

theorem matchClasses_length (cls : List (Char → Bool)) (l : List Char)
    (h : matchClasses cls l = true) : l.length = cls.length := by
  induction cls generalizing l with
  | nil =>
    cases l with
    | nil => rfl
    | cons c cs => simp [matchClasses] at h
  | cons f fs ih =>
    cases l with
    | nil => simp [matchClasses] at h
    | cons c cs =>
      simp only [matchClasses, Bool.and_eq_true] at h
      simp [ih cs h.2]

theorem gstinMatch_length {s : String} (h : gstinMatch s = true) : s.length = 15 := by
  have h2 := matchClasses_length gstinClasses s.toList h
  simp only [gstinClasses, List.length_cons, List.length_nil] at h2
  exact h2

theorem gstinMatch_ne_empty {s : String} (h : gstinMatch s = true) : s ≠ "" := by
  intro e
  rw [e] at h
  exact absurd h (by decide)

theorem verifyCheck_of_match {s : String} (h : gstinMatch s = true) : verifyCheck s = none := by
  simp [verifyCheck, gstinMatch_ne_empty h, gstinMatch_length h, h]

theorem pyStrip_empty : pyStrip "" = "" := rfl

theorem pyOr_str_empty (s : String) : pyOr (Json.str s) (Json.str "") = Json.str s := by
  by_cases h : s = ""
  · subst h; rfl
  · simp [pyOr, truthy, h]

theorem getStrField_str {fs : List (String × Json)} {k s : String}
    (h : fs.lookup k = some (Json.str s)) :
    getStrField (Json.obj fs) k = .ok (pyStrip s) := by
  simp [getStrField, dictGet, h, pyOr_str_empty]

theorem getStrField_absent {fs : List (String × Json)} {k : String}
    (h : fs.lookup k = none) :
    getStrField (Json.obj fs) k = .ok "" := by
  simp [getStrField, dictGet, h, pyOr, truthy, pyStrip_empty]

theorem bodyData_obj (fs : List (String × Json)) :
    bodyData (some (Json.obj fs)) = Json.obj fs := by
  cases fs with
  | nil => rfl
  | cons p l => rfl

theorem eq_cons_of_length_succ {α : Type} (n : Nat) {l : List α} (h : l.length = n + 1) :
    ∃ a t, l = a :: t ∧ t.length = n := by
  cases l with
  | nil => simp at h
  | cons a t => exact ⟨a, t, rfl, by simpa using h⟩

theorem toList_len15 {l : List Char} (h : l.length = 15) :
    ∃ c0 c1 c2 c3 c4 c5 c6 c7 c8 c9 c10 c11 c12 c13 c14,
      l = [c0, c1, c2, c3, c4, c5, c6, c7, c8, c9, c10, c11, c12, c13, c14] := by
  obtain ⟨c0, t0, rfl, h1⟩ := eq_cons_of_length_succ 14 h
  obtain ⟨c1, t1, rfl, h2⟩ := eq_cons_of_length_succ 13 h1
  obtain ⟨c2, t2, rfl, h3⟩ := eq_cons_of_length_succ 12 h2
  obtain ⟨c3, t3, rfl, h4⟩ := eq_cons_of_length_succ 11 h3
  obtain ⟨c4, t4, rfl, h5⟩ := eq_cons_of_length_succ 10 h4
  obtain ⟨c5, t5, rfl, h6⟩ := eq_cons_of_length_succ 9 h5
  obtain ⟨c6, t6, rfl, h7⟩ := eq_cons_of_length_succ 8 h6
  obtain ⟨c7, t7, rfl, h8⟩ := eq_cons_of_length_succ 7 h7
  obtain ⟨c8, t8, rfl, h9⟩ := eq_cons_of_length_succ 6 h8
  obtain ⟨c9, t9, rfl, h10⟩ := eq_cons_of_length_succ 5 h9
  obtain ⟨c10, t10, rfl, h11⟩ := eq_cons_of_length_succ 4 h10
  obtain ⟨c11, t11, rfl, h12⟩ := eq_cons_of_length_succ 3 h11
  obtain ⟨c12, t12, rfl, h13⟩ := eq_cons_of_length_succ 2 h12
  obtain ⟨c13, t13, rfl, h14⟩ := eq_cons_of_length_succ 1 h13
  obtain ⟨c14, t14, rfl, h15⟩ := eq_cons_of_length_succ 0 h14
  obtain rfl := List.length_eq_zero.mp h15
  exact ⟨c0, c1, c2, c3, c4, c5, c6, c7, c8, c9, c10, c11, c12, c13, c14, rfl⟩

theorem gstinMatch_iff_spec (s : String) : gstinMatch s = true ↔ specGstinPattern s := by
  constructor
  · intro h
    have hl : s.toList.length = 15 := by
      have h2 := matchClasses_length gstinClasses s.toList h
      simp only [gstinClasses, List.length_cons, List.length_nil] at h2
      exact h2
    obtain ⟨c0, c1, c2, c3, c4, c5, c6, c7, c8, c9, c10, c11, c12, c13, c14, hl15⟩ :=
      toList_len15 hl
    rw [gstinMatch, hl15] at h
    simp only [matchClasses, gstinClasses, Bool.and_eq_true, beq_iff_eq,
      eq_self_iff_true, and_true] at h
    obtain ⟨h0, h1, h2, h3, h4, h5, h6, h7, h8, h9, h10, h11, h12, h13, h14⟩ := h
    subst h13
    refine ⟨[c0, c1], [c2, c3, c4, c5, c6], [c7, c8, c9, c10], c11, c12, c14,
      ?_, rfl, ?_, rfl, ?_, rfl, ?_, h11, h12, h14⟩
    · simpa using hl15
    · intro c hc
      simp only [List.mem_cons, List.not_mem_nil, or_false] at hc
      rcases hc with rfl | rfl
      · exact h0
      · exact h1
    · intro c hc
      simp only [List.mem_cons, List.not_mem_nil, or_false] at hc
      rcases hc with rfl | rfl | rfl | rfl | rfl
      · exact h2
      · exact h3
      · exact h4
      · exact h5
      · exact h6
    · intro c hc
      simp only [List.mem_cons, List.not_mem_nil, or_false] at hc
      rcases hc with rfl | rfl | rfl | rfl
      · exact h7
      · exact h8
      · exact h9
      · exact h10
  · intro hs
    obtain ⟨d2, l5, d4, u, x1, x2, heq, hd2l, hd2, hl5l, hl5, hd4l, hd4, hu, hx1, hx2⟩ := hs
    obtain ⟨a0, s0, rfl, ha1⟩ := eq_cons_of_length_succ 1 hd2l
    obtain ⟨a1, s1, rfl, ha2⟩ := eq_cons_of_length_succ 0 ha1
    obtain rfl := List.length_eq_zero.mp ha2
    obtain ⟨b0, u0, rfl, hb1⟩ := eq_cons_of_length_succ 4 hl5l
    obtain ⟨b1, u1, rfl, hb2⟩ := eq_cons_of_length_succ 3 hb1
    obtain ⟨b2, u2, rfl, hb3⟩ := eq_cons_of_length_succ 2 hb2
    obtain ⟨b3, u3, rfl, hb4⟩ := eq_cons_of_length_succ 1 hb3
    obtain ⟨b4, u4, rfl, hb5⟩ := eq_cons_of_length_succ 0 hb4
    obtain rfl := List.length_eq_zero.mp hb5
    obtain ⟨e0, v0, rfl, he1⟩ := eq_cons_of_length_succ 3 hd4l
    obtain ⟨e1, v1, rfl, he2⟩ := eq_cons_of_length_succ 2 he1
    obtain ⟨e2, v2, rfl, he3⟩ := eq_cons_of_length_succ 1 he2
    obtain ⟨e3, v3, rfl, he4⟩ := eq_cons_of_length_succ 0 he3
    obtain rfl := List.length_eq_zero.mp he4
    rw [gstinMatch, heq]
    simp only [List.cons_append, List.nil_append, matchClasses, gstinClasses,
      Bool.and_eq_true, beq_iff_eq, eq_self_iff_true, and_true, true_and]
    exact ⟨hd2 a0 (by simp), hd2 a1 (by simp),
      hl5 b0 (by simp), hl5 b1 (by simp), hl5 b2 (by simp), hl5 b3 (by simp), hl5 b4 (by simp),
      hd4 e0 (by simp), hd4 e1 (by simp), hd4 e2 (by simp), hd4 e3 (by simp),
      hu, hx1, hx2⟩

/- ------------------------------------------------------------------ -/
/- Claim theorems                                                      -/
/- ------------------------------------------------------------------ -/

/-- C4: for every normalized 15-character string, the Validator accepts it
exactly when it has the structural shape two digits, five uppercase letters,
four digits, one uppercase letter, one uppercase alphanumeric, the literal Z
and one uppercase alphanumeric; every 15-character string outside that shape
is rejected with the message about the format looking invalid. -/
theorem c4_pattern_characterizes_acceptance (g : String) (h15 : g.length = 15) :
    ((verifyCheck g = none) ↔ specGstinPattern g) ∧
    (¬ specGstinPattern g →
      verifyCheck g = some ⟨400, errBody "GSTIN format looks invalid."⟩) := by
  have hne : g ≠ "" := by
    intro e
    subst e
    exact absurd h15 (by decide)
  constructor
  · rw [← gstinMatch_iff_spec]
    cases hm : gstinMatch g with
    | false => simp [verifyCheck, hne, h15, hm]
    | true => simp [verifyCheck, hne, h15, hm]
  · intro hns
    have hm : gstinMatch g = false := by
      cases hm : gstinMatch g with
      | false => rfl
      | true => exact absurd ((gstinMatch_iff_spec g).mp hm) hns
    simp [verifyCheck, hne, h15, hm]

/-- Witness for C4 at the concrete format-valid identifier 27AAAAA0000A1Z5. -/
theorem c4_witness :
    ((verifyCheck "27AAAAA0000A1Z5" = none) ↔ specGstinPattern "27AAAAA0000A1Z5") ∧
    (¬ specGstinPattern "27AAAAA0000A1Z5" →
      verifyCheck "27AAAAA0000A1Z5" = some ⟨400, errBody "GSTIN format looks invalid."⟩) :=
  c4_pattern_characterizes_acceptance "27AAAAA0000A1Z5" (by decide)

/-- C3 counterexample: a string that is empty after trimming has normalized
length 0, which differs from 15, yet the Validator reports the required
message, not the 15-characters message. -/
theorem c3_counterexample :
    verifyCheck (pyUpper (pyStrip "   ")) ≠
      some ⟨400, errBody "GSTIN must be exactly 15 characters."⟩ ∧
    verifyCheck (pyUpper (pyStrip "   ")) = some ⟨400, errBody "GSTIN is required."⟩ := by
  constructor
  · intro h
    have h2 : verifyCheck (pyUpper (pyStrip "   ")) =
        some ⟨400, errBody "GSTIN is required."⟩ := rfl
    rw [h2] at h
    simp [errBody] at h
  · rfl

/-- C3 amended: every input whose normalized form is nonempty and of length
other than 15 is rejected with the 15-characters message; an input that is
empty after trimming is instead rejected with the required message. -/
theorem c3_length_message (raw : String) :
    (pyUpper (pyStrip raw) ≠ "" → (pyUpper (pyStrip raw)).length ≠ 15 →
      verifyCheck (pyUpper (pyStrip raw)) =
        some ⟨400, errBody "GSTIN must be exactly 15 characters."⟩) ∧
    (pyUpper (pyStrip raw) = "" →
      verifyCheck (pyUpper (pyStrip raw)) = some ⟨400, errBody "GSTIN is required."⟩) := by
  constructor
  · intro hne hlen
    simp [verifyCheck, hne, hlen]
  · intro he
    simp [verifyCheck, he]

/-- Witness for C3 at a concrete 3-character input. -/
theorem c3_witness :
    verifyCheck (pyUpper (pyStrip " abc ")) =
      some ⟨400, errBody "GSTIN must be exactly 15 characters."⟩ :=
  (c3_length_message " abc ").1 (by decide) (by decide)

/-- C1 counterexample: on the raw input ABC (with the other submit fields
present and nonempty) verify rejects with the 15-characters message while
submit rejects with the format message, so the two rejection messages differ
for the same raw GSTIN. -/
theorem c1_counterexample :
    verify_gst "k" (some (Json.obj [("gstn", Json.str "ABC")])) UpstreamResult.badJson =
      .ok ⟨400, errBody "GSTIN must be exactly 15 characters."⟩ ∧
    submit (some (Json.obj [("gstn", Json.str "ABC"), ("legal_name", Json.str "L"),
        ("firm_name", Json.str "F"), ("name1", Json.str "N"), ("contact", Json.str "C")]))
      [] none 0 =
      .ok (⟨400, errBody "GSTIN format looks invalid."⟩, []) ∧
    ("GSTIN must be exactly 15 characters." : String) ≠ "GSTIN format looks invalid." :=
  ⟨rfl, rfl, by decide⟩

/-- C1 amended: for every raw input, with the other required submit fields
nonempty, the accept/reject outcome of the two validations coincides, and
every rejection on either side carries a 400 status; the rejection messages
themselves may differ. -/
theorem c1_validators_agree_on_acceptance (raw lg fm n1 n2 ct : String)
    (hlg : lg ≠ "") (hfm : fm ≠ "") (hn1 : n1 ≠ "") (hct : ct ≠ "") :
    ((verifyCheck (pyUpper (pyStrip raw))).isNone =
      (submitChecks ⟨pyUpper (pyStrip raw), lg, fm, n1, n2, ct⟩).isNone) ∧
    ((verifyCheck (pyUpper (pyStrip raw))).map Response.status = none ∨
      (verifyCheck (pyUpper (pyStrip raw))).map Response.status = some 400) ∧
    ((submitChecks ⟨pyUpper (pyStrip raw), lg, fm, n1, n2, ct⟩).map Response.status = none ∨
      (submitChecks ⟨pyUpper (pyStrip raw), lg, fm, n1, n2, ct⟩).map Response.status = some 400) := by
  by_cases he : pyUpper (pyStrip raw) = ""
  · simp [verifyCheck, submitChecks, he]
  · by_cases h15 : (pyUpper (pyStrip raw)).length = 15
    · cases hm : gstinMatch (pyUpper (pyStrip raw)) with
      | true => simp [verifyCheck, submitChecks, he, hlg, hfm, hn1, hct, h15, hm]
      | false => simp [verifyCheck, submitChecks, he, hlg, hfm, hn1, hct, h15, hm]
    · simp [verifyCheck, submitChecks, he, hlg, hfm, hn1, hct, h15]

/-- Witness for C1 at a concrete raw input that normalizes to a valid GSTIN. -/
theorem c1_witness :
    ((verifyCheck (pyUpper (pyStrip " 27aaaaa0000a1z5 "))).isNone =
      (submitChecks ⟨pyUpper (pyStrip " 27aaaaa0000a1z5 "), "L", "F", "N", "", "C"⟩).isNone) ∧
    ((verifyCheck (pyUpper (pyStrip " 27aaaaa0000a1z5 "))).map Response.status = none ∨
      (verifyCheck (pyUpper (pyStrip " 27aaaaa0000a1z5 "))).map Response.status = some 400) ∧
    ((submitChecks ⟨pyUpper (pyStrip " 27aaaaa0000a1z5 "), "L", "F", "N", "", "C"⟩).map
        Response.status = none ∨
      (submitChecks ⟨pyUpper (pyStrip " 27aaaaa0000a1z5 "), "L", "F", "N", "", "C"⟩).map
        Response.status = some 400) :=
  c1_validators_agree_on_acceptance " 27aaaaa0000a1z5 " "L" "F" "N" "" "C"
    (by decide) (by decide) (by decide) (by decide)

/-- C9: a request with an absent or unparseable body is handled as the empty
object: verify answers 400 with the required message, submit answers 400 with
the missing-fields message and leaves the store unchanged, and neither
handler lets a fault escape from body parsing. -/
theorem c9_missing_body (keySecret : String) (upstream : UpstreamResult)
    (db : List Row) (fault : Option String) (now : Nat) :
    verify_gst keySecret none upstream = .ok ⟨400, errBody "GSTIN is required."⟩ ∧
    verify_gst keySecret none upstream = verify_gst keySecret (some (Json.obj [])) upstream ∧
    submit none db fault now =
      .ok (⟨400, errBody "Please verify GSTIN and fill Name 1 & Contact."⟩, db) ∧
    submit none db fault now = submit (some (Json.obj [])) db fault now :=
  ⟨rfl, rfl, rfl, rfl⟩

/-- C5: with a format-valid gstn, a configured secret and a payload with no
error flag, verify answers 404 exactly when both extracted names are empty,
and otherwise answers 200 with the gstn and the trimmed names. -/
theorem c5_notfound_iff_no_names (keySecret g : String) (p : Json) (l f : String)
    (hsec : keySecret ≠ "") (hg : gstinMatch (pyUpper (pyStrip g)) = true)
    (he : dictGet p "error" = .ok Json.null)
    (hx : extractNames p = .ok (l, f)) :
    verify_gst keySecret (some (Json.obj [("gstn", Json.str g)])) (.payload p) =
      .ok (if l = "" ∧ f = "" then
             ⟨404, errBody "Could not find Legal Name / Firm Name for this GSTIN."⟩
           else
             ⟨200, Json.obj [("ok", Json.bool true), ("gstn", Json.str (pyUpper (pyStrip g))),
                             ("legal_name", Json.str l), ("firm_name", Json.str f)]⟩) ∧
    ((verify_gst keySecret (some (Json.obj [("gstn", Json.str g)])) (.payload p) =
        .ok ⟨404, errBody "Could not find Legal Name / Firm Name for this GSTIN."⟩) ↔
      (l = "" ∧ f = "")) := by
  have hlk : ([("gstn", Json.str g)] : List (String × Json)).lookup "gstn" =
      some (Json.str g) := rfl
  have hmain : verify_gst keySecret (some (Json.obj [("gstn", Json.str g)])) (.payload p) =
      afterErrorCheck (pyUpper (pyStrip g)) p := by
    simp [verify_gst, bodyData_obj, getStrField_str hlk, verifyCheck_of_match hg, he, hsec]
  have hafter : afterErrorCheck (pyUpper (pyStrip g)) p =
      .ok (if l = "" ∧ f = "" then
             ⟨404, errBody "Could not find Legal Name / Firm Name for this GSTIN."⟩
           else
             ⟨200, Json.obj [("ok", Json.bool true), ("gstn", Json.str (pyUpper (pyStrip g))),
                             ("legal_name", Json.str l), ("firm_name", Json.str f)]⟩) := by
    by_cases hb : l = "" ∧ f = ""
    · simp [afterErrorCheck, hx, hb]
    · simp [afterErrorCheck, hx, hb]
  refine ⟨hmain.trans hafter, ?_⟩
  rw [hmain, hafter]
  by_cases hb : l = "" ∧ f = ""
  · rw [if_pos hb]
    simp [hb]
  · rw [if_neg hb]
    constructor
    · intro hcontra
      exfalso
      simp [errBody] at hcontra
    · intro hb2
      exact absurd hb2 hb

/-- C8: the verification-failed branch requires the error field to be the
boolean true itself: any other value there, truthy or not, sends verify on to
name extraction exactly as if no error flag were set, and the response is
never the 400-class verification-failed one. -/
theorem c8_error_flag_identity (keySecret g : String) (p : Json) (ev : Json)
    (hsec : keySecret ≠ "") (hg : gstinMatch (pyUpper (pyStrip g)) = true)
    (hev : dictGet p "error" = .ok ev) (htr : truthy ev = true)
    (hne : ev ≠ Json.bool true) :
    verify_gst keySecret (some (Json.obj [("gstn", Json.str g)])) (.payload p) =
      afterErrorCheck (pyUpper (pyStrip g)) p ∧
    verify_gst keySecret (some (Json.obj [("gstn", Json.str g)])) (.payload p) ≠
      .ok ⟨400, Json.obj [("ok", Json.bool false),
                          ("message", dictGetD p "message" (Json.str "GST verification failed."))]⟩ := by
  have hlk : ([("gstn", Json.str g)] : List (String × Json)).lookup "gstn" =
      some (Json.str g) := rfl
  have hmain : verify_gst keySecret (some (Json.obj [("gstn", Json.str g)])) (.payload p) =
      afterErrorCheck (pyUpper (pyStrip g)) p := by
    simp only [verify_gst, bodyData_obj, getStrField_str hlk, verifyCheck_of_match hg, hev]
    rw [if_neg hsec]
  refine ⟨hmain, ?_⟩
  rw [hmain]
  cases hx : extractNames p with
  | error e => simp [afterErrorCheck, hx]
  | ok lf =>
    obtain ⟨l, f⟩ := lf
    by_cases hb : l = "" ∧ f = ""
    · simp [afterErrorCheck, hx, hb, errBody]
    · simp [afterErrorCheck, hx, hb]

/-- Witness for C5 at a concrete payload carrying taxpayer names. -/
theorem c5_witness :
    verify_gst "k" (some (Json.obj [("gstn", Json.str "27AAAAA0000A1Z5")]))
      (.payload (Json.obj [("taxpayerInfo",
        Json.obj [("lgnm", Json.str " ACME PVT LTD "), ("tradeNam", Json.str "Acme")])])) =
      .ok ⟨200, Json.obj [("ok", Json.bool true), ("gstn", Json.str "27AAAAA0000A1Z5"),
                          ("legal_name", Json.str "ACME PVT LTD"),
                          ("firm_name", Json.str "Acme")]⟩ := by
  have h := (c5_notfound_iff_no_names "k" "27AAAAA0000A1Z5"
    (Json.obj [("taxpayerInfo",
      Json.obj [("lgnm", Json.str " ACME PVT LTD "), ("tradeNam", Json.str "Acme")])])
    "ACME PVT LTD" "Acme" (by decide) (by decide) rfl rfl).1
  rw [if_neg (by decide)] at h
  exact h

/-- Witness for C8 at a payload whose error field is the truthy string true. -/
theorem c8_witness :
    verify_gst "k" (some (Json.obj [("gstn", Json.str "27AAAAA0000A1Z5")]))
      (.payload (Json.obj [("error", Json.str "true")])) =
      afterErrorCheck "27AAAAA0000A1Z5" (Json.obj [("error", Json.str "true")]) ∧
    verify_gst "k" (some (Json.obj [("gstn", Json.str "27AAAAA0000A1Z5")]))
      (.payload (Json.obj [("error", Json.str "true")])) ≠
      .ok ⟨400, Json.obj [("ok", Json.bool false),
                          ("message", dictGetD (Json.obj [("error", Json.str "true")])
                            "message" (Json.str "GST verification failed."))]⟩ :=
  c8_error_flag_identity "k" "27AAAAA0000A1Z5" (Json.obj [("error", Json.str "true")])
    (Json.str "true") (by decide) (by decide) rfl (by decide) (by simp)

/-- The submit field extraction, expressed through the raw body values: every
stored field is the trimmed caller value, gstn additionally uppercased, and a
missing or present name2 both come out as plain (possibly empty) strings. -/
theorem extractSubmitFields_eq (fs : List (String × Json)) (g lg fm n1 ct : String)
    (n2case : Option String)
    (hg : fs.lookup "gstn" = some (Json.str g))
    (hlg : fs.lookup "legal_name" = some (Json.str lg))
    (hfm : fs.lookup "firm_name" = some (Json.str fm))
    (hn1 : fs.lookup "name1" = some (Json.str n1))
    (hn2 : fs.lookup "name2" = n2case.map Json.str)
    (hct : fs.lookup "contact" = some (Json.str ct)) :
    extractSubmitFields (Json.obj fs) =
      .ok ⟨pyUpper (pyStrip g), pyStrip lg, pyStrip fm, pyStrip n1,
           pyStrip (n2case.getD ""), pyStrip ct⟩ := by
  cases n2case with
  | none =>
    have hn2a : fs.lookup "name2" = none := by simpa using hn2
    simp [extractSubmitFields, getStrField_str hg, getStrField_str hlg, getStrField_str hfm,
      getStrField_str hn1, getStrField_absent hn2a, getStrField_str hct, pyStrip_empty]
  | some n2 =>
    have hn2a : fs.lookup "name2" = some (Json.str n2) := by simpa using hn2
    simp [extractSubmitFields, getStrField_str hg, getStrField_str hlg, getStrField_str hfm,
      getStrField_str hn1, getStrField_str hn2a, getStrField_str hct]

/-- Unfolding of submit once the extracted fields pass both checks. -/
theorem submitCore_valid (fs : List (String × Json)) (f : SubmitFields)
    (hx : extractSubmitFields (Json.obj fs) = .ok f)
    (hck : submitChecks f = none) (db : List Row) (fault : Option String) (now : Nat) :
    submit (some (Json.obj fs)) db fault now = .ok (dbPhase f db fault now) := by
  simp [submit, submitCore, bodyData_obj, hx, hck]

/-- C2 counterexample: the 500-class response to a non-uniqueness storage
failure embeds the internal failure detail in its message, so the message is
not a fixed generic text: two different driver faults produce two different
user-facing messages, each containing the detail. -/
theorem c2_counterexample :
    submit (some (Json.obj [("gstn", Json.str "27AAAAA0000A1Z5"), ("legal_name", Json.str "L"),
        ("firm_name", Json.str "F"), ("name1", Json.str "N"), ("contact", Json.str "C")]))
      [] (some "connection to server at 10.0.0.5 failed") 0 =
      .ok (⟨500, errBody "DB insert failed: connection to server at 10.0.0.5 failed"⟩, []) ∧
    submit (some (Json.obj [("gstn", Json.str "27AAAAA0000A1Z5"), ("legal_name", Json.str "L"),
        ("firm_name", Json.str "F"), ("name1", Json.str "N"), ("contact", Json.str "C")]))
      [] (some "disk full") 0 =
      .ok (⟨500, errBody "DB insert failed: disk full"⟩, []) ∧
    ("DB insert failed: connection to server at 10.0.0.5 failed" : String) ≠
      "DB insert failed: disk full" :=
  ⟨rfl, rfl, by decide⟩

/-- C2 amended: a submit whose insert fails with any error other than a
uniqueness violation answers 500 with the message DB insert failed followed
by the internal detail (which is also logged), and creates no row. -/
theorem c2_storage_error_response (fs : List (String × Json)) (f : SubmitFields)
    (hx : extractSubmitFields (Json.obj fs) = .ok f) (hck : submitChecks f = none)
    (db : List Row) (d : String) (now : Nat) :
    submit (some (Json.obj fs)) db (some d) now =
      .ok (⟨500, errBody ("DB insert failed: " ++ d)⟩, db) := by
  rw [submitCore_valid fs f hx hck db (some d) now]
  rfl

/-- Witness for C2 at a concrete fault detail. -/
theorem c2_witness :
    submit (some (Json.obj [("gstn", Json.str "33AAAAA0000A1Z5"), ("legal_name", Json.str "L"),
        ("firm_name", Json.str "F"), ("name1", Json.str "N"), ("contact", Json.str "C")]))
      [] (some "boom") 7 =
      .ok (⟨500, errBody "DB insert failed: boom"⟩, []) :=
  c2_storage_error_response
    [("gstn", Json.str "33AAAAA0000A1Z5"), ("legal_name", Json.str "L"),
     ("firm_name", Json.str "F"), ("name1", Json.str "N"), ("contact", Json.str "C")]
    ⟨"33AAAAA0000A1Z5", "L", "F", "N", "", "C"⟩ rfl rfl [] "boom" 7

/-- C6: with valid fields and no driver fault, a first submit for a fresh
gstn answers 200 with the gstn as id and appends exactly one row; an
immediately repeated submit for the same gstn answers 409 with the duplicate
code and leaves the store unchanged — no deduplication, no upsert. -/
theorem c6_duplicate_rejected (fs : List (String × Json)) (f : SubmitFields)
    (hx : extractSubmitFields (Json.obj fs) = .ok f) (hck : submitChecks f = none)
    (db : List Row) (now now2 : Nat)
    (hnew : db.any (fun r => r.gstn == f.gstn) = false) :
    submit (some (Json.obj fs)) db none now =
      .ok (⟨200, Json.obj [("ok", Json.bool true), ("id", Json.str f.gstn)]⟩,
           db ++ [⟨f.gstn, f.legal_name, f.firm_name, f.name1, some f.name2, f.contact, now⟩]) ∧
    submit (some (Json.obj fs))
        (db ++ [⟨f.gstn, f.legal_name, f.firm_name, f.name1, some f.name2, f.contact, now⟩])
        none now2 =
      .ok (⟨409, Json.obj [("ok", Json.bool false),
                           ("message", Json.str "This GSTIN already exists."),
                           ("code", Json.str "duplicate")]⟩,
           db ++ [⟨f.gstn, f.legal_name, f.firm_name, f.name1, some f.name2, f.contact, now⟩]) := by
  constructor
  · rw [submitCore_valid fs f hx hck db none now]
    simp [dbPhase, hnew]
  · rw [submitCore_valid fs f hx hck
      (db ++ [(⟨f.gstn, f.legal_name, f.firm_name, f.name1, some f.name2, f.contact, now⟩ : Row)])
      none now2]
    simp [dbPhase, List.any_append, hnew]

/-- Witness for C6: a concrete first-then-repeated submission. -/
theorem c6_witness :
    submit (some (Json.obj [("gstn", Json.str "07BBBBB1111B1Z6"), ("legal_name", Json.str "Legal"),
        ("firm_name", Json.str "Firm"), ("name1", Json.str "A"), ("name2", Json.str "B"),
        ("contact", Json.str "123")])) [] none 1 =
      .ok (⟨200, Json.obj [("ok", Json.bool true), ("id", Json.str "07BBBBB1111B1Z6")]⟩,
           [⟨"07BBBBB1111B1Z6", "Legal", "Firm", "A", some "B", "123", 1⟩]) ∧
    submit (some (Json.obj [("gstn", Json.str "07BBBBB1111B1Z6"), ("legal_name", Json.str "Legal"),
        ("firm_name", Json.str "Firm"), ("name1", Json.str "A"), ("name2", Json.str "B"),
        ("contact", Json.str "123")]))
      [⟨"07BBBBB1111B1Z6", "Legal", "Firm", "A", some "B", "123", 1⟩] none 2 =
      .ok (⟨409, Json.obj [("ok", Json.bool false),
                           ("message", Json.str "This GSTIN already exists."),
                           ("code", Json.str "duplicate")]⟩,
           [⟨"07BBBBB1111B1Z6", "Legal", "Firm", "A", some "B", "123", 1⟩]) :=
  c6_duplicate_rejected
    [("gstn", Json.str "07BBBBB1111B1Z6"), ("legal_name", Json.str "Legal"),
     ("firm_name", Json.str "Firm"), ("name1", Json.str "A"), ("name2", Json.str "B"),
     ("contact", Json.str "123")]
    ⟨"07BBBBB1111B1Z6", "Legal", "Firm", "A", "B", "123"⟩ rfl rfl [] 1 2 rfl

/-- C7: a submit in which any of the five required fields is empty after
trimming answers 400 and leaves the store unchanged, while an empty name2
by itself does not cause rejection. -/
theorem c7_required_fields (fs : List (String × Json)) (f : SubmitFields)
    (hx : extractSubmitFields (Json.obj fs) = .ok f)
    (db : List Row) (fault : Option String) (now : Nat) :
    ((f.gstn = "" ∨ f.legal_name = "" ∨ f.firm_name = "" ∨ f.name1 = "" ∨ f.contact = "") →
      submit (some (Json.obj fs)) db fault now =
        .ok (⟨400, errBody "Please verify GSTIN and fill Name 1 & Contact."⟩, db)) ∧
    (f.name2 = "" → f.gstn ≠ "" → f.legal_name ≠ "" → f.firm_name ≠ "" → f.name1 ≠ "" →
      f.contact ≠ "" → gstinMatch f.gstn = true → fault = none →
      db.any (fun r => r.gstn == f.gstn) = false →
      submit (some (Json.obj fs)) db fault now =
        .ok (⟨200, Json.obj [("ok", Json.bool true), ("id", Json.str f.gstn)]⟩,
             db ++ [⟨f.gstn, f.legal_name, f.firm_name, f.name1, some "", f.contact, now⟩])) := by
  constructor
  · intro hmiss
    have hck : submitChecks f =
        some ⟨400, errBody "Please verify GSTIN and fill Name 1 & Contact."⟩ := by
      unfold submitChecks
      rw [if_pos hmiss]
    simp [submit, submitCore, bodyData_obj, hx, hck]
  · intro hn2 hg hlg hfm hn1 hct hm hfault hnew
    subst hfault
    have hck : submitChecks f = none := by
      simp [submitChecks, hg, hlg, hfm, hn1, hct, gstinMatch_length hm, hm]
    rw [submitCore_valid fs f hx hck db none now]
    simp [dbPhase, hnew, hn2]

/-- Witness for C7: an empty contact is rejected with 400 and no row, while
an empty name2 with everything else valid is inserted. -/
theorem c7_witness :
    submit (some (Json.obj [("gstn", Json.str "27AAAAA0000A1Z5"), ("legal_name", Json.str "L"),
        ("firm_name", Json.str "F"), ("name1", Json.str "N"), ("contact", Json.str "  ")]))
      [] none 3 =
      .ok (⟨400, errBody "Please verify GSTIN and fill Name 1 & Contact."⟩, []) ∧
    submit (some (Json.obj [("gstn", Json.str "29DDDDD3333D1Z2"), ("legal_name", Json.str "L"),
        ("firm_name", Json.str "F"), ("name1", Json.str "N"), ("name2", Json.str "  "),
        ("contact", Json.str "C")])) [] none 4 =
      .ok (⟨200, Json.obj [("ok", Json.bool true), ("id", Json.str "29DDDDD3333D1Z2")]⟩,
           [⟨"29DDDDD3333D1Z2", "L", "F", "N", some "", "C", 4⟩]) :=
  ⟨(c7_required_fields
      [("gstn", Json.str "27AAAAA0000A1Z5"), ("legal_name", Json.str "L"),
       ("firm_name", Json.str "F"), ("name1", Json.str "N"), ("contact", Json.str "  ")]
      ⟨"27AAAAA0000A1Z5", "L", "F", "N", "", ""⟩ rfl [] none 3).1 (by decide),
   (c7_required_fields
      [("gstn", Json.str "29DDDDD3333D1Z2"), ("legal_name", Json.str "L"),
       ("firm_name", Json.str "F"), ("name1", Json.str "N"), ("name2", Json.str "  "),
       ("contact", Json.str "C")]
      ⟨"29DDDDD3333D1Z2", "L", "F", "N", "", "C"⟩ rfl [] none 4).2 rfl
     (by decide) (by decide) (by decide) (by decide) (by decide) (by decide) rfl rfl⟩

/-- C10: a successful insert stores exactly the trimmed caller values, the
gstn additionally uppercased, and name2 as a present string — the empty
string rather than a null or absent column value — when the caller omitted
or blanked it. -/
theorem c10_inserted_row_fields (fs : List (String × Json)) (g lg fm n1 ct : String)
    (n2case : Option String)
    (hg : fs.lookup "gstn" = some (Json.str g))
    (hlg : fs.lookup "legal_name" = some (Json.str lg))
    (hfm : fs.lookup "firm_name" = some (Json.str fm))
    (hn1 : fs.lookup "name1" = some (Json.str n1))
    (hn2 : fs.lookup "name2" = n2case.map Json.str)
    (hct : fs.lookup "contact" = some (Json.str ct))
    (hm : gstinMatch (pyUpper (pyStrip g)) = true)
    (hlg2 : pyStrip lg ≠ "") (hfm2 : pyStrip fm ≠ "") (hn12 : pyStrip n1 ≠ "")
    (hct2 : pyStrip ct ≠ "")
    (db : List Row) (now : Nat)
    (hnew : db.any (fun r => r.gstn == pyUpper (pyStrip g)) = false) :
    submit (some (Json.obj fs)) db none now =
      .ok (⟨200, Json.obj [("ok", Json.bool true), ("id", Json.str (pyUpper (pyStrip g)))]⟩,
           db ++ [⟨pyUpper (pyStrip g), pyStrip lg, pyStrip fm, pyStrip n1,
                   some (pyStrip (n2case.getD "")), pyStrip ct, now⟩]) := by
  have hx := extractSubmitFields_eq fs g lg fm n1 ct n2case hg hlg hfm hn1 hn2 hct
  have hck : submitChecks (⟨pyUpper (pyStrip g), pyStrip lg, pyStrip fm, pyStrip n1,
      pyStrip (n2case.getD ""), pyStrip ct⟩ : SubmitFields) = none := by
    simp [submitChecks, gstinMatch_ne_empty hm, gstinMatch_length hm, hm,
      hlg2, hfm2, hn12, hct2]
  rw [submitCore_valid fs _ hx hck db none now]
  simp [dbPhase, hnew]

/-- Witness for C10 at a request without a name2 key: the stored row has the
empty string, not an absent value, in the name2 column. -/
theorem c10_witness :
    submit (some (Json.obj [("gstn", Json.str " 09ccccc2222c1z9 "),
        ("legal_name", Json.str " Acme Legal "), ("firm_name", Json.str "Acme"),
        ("name1", Json.str "Jane"), ("contact", Json.str "99")])) [] none 5 =
      .ok (⟨200, Json.obj [("ok", Json.bool true), ("id", Json.str "09CCCCC2222C1Z9")]⟩,
           [⟨"09CCCCC2222C1Z9", "Acme Legal", "Acme", "Jane", some "", "99", 5⟩]) :=
  c10_inserted_row_fields
    [("gstn", Json.str " 09ccccc2222c1z9 "), ("legal_name", Json.str " Acme Legal "),
     ("firm_name", Json.str "Acme"), ("name1", Json.str "Jane"), ("contact", Json.str "99")]
    " 09ccccc2222c1z9 " " Acme Legal " "Acme" "Jane" "99" none
    rfl rfl rfl rfl rfl rfl (by decide) (by decide) (by decide) (by decide) (by decide) [] 5 rfl
